import Mathlib

/-!
Shallow embedding of the Onyt microservice (`main.go`): a YouTube channel
poller that caches a snapshot (channel, live video, recent uploads) and
serves it as JSON. Upstream HTTP / API responses are modelled as explicit
environment values consumed by the translated functions; machine effects
(network, logging) are irrelevant to the verified properties.
-/

namespace Onyt

/-- Errors are opaque to the program; it only propagates them. -/
abbrev Err := String

/-- A video record (`youtube.Video`); only `Id` is inspected by the code,
`title` stands for the remaining payload. -/
structure Video where
  id : String
  title : String
  deriving DecidableEq, Repr

/-- `youtube.ChannelContentDetailsRelatedPlaylists`. -/
structure RelatedPlaylists where
  uploads : String
  deriving DecidableEq, Repr

/-- `youtube.ChannelContentDetails`. -/
structure ChannelContentDetails where
  relatedPlaylists : RelatedPlaylists
  deriving DecidableEq, Repr

/-- A channel record (`youtube.Channel`): the code reads `Id` and
`ContentDetails.RelatedPlaylists.Uploads`; `title` stands for the rest. -/
structure Channel where
  id : String
  contentDetails : ChannelContentDetails
  title : String
  deriving DecidableEq, Repr

/-- `youtube.PlaylistItemContentDetails`. -/
structure PlaylistItemContentDetails where
  videoId : String
  deriving DecidableEq, Repr

/-- A playlist item (`youtube.PlaylistItem`); the code reads only
`ContentDetails.VideoId`. -/
structure PlaylistItem where
  contentDetails : PlaylistItemContentDetails
  deriving DecidableEq, Repr

/-- The `State` struct: `Channel *youtube.Channel`, `LiveVideo *youtube.Video`,
`Videos []*youtube.Video`. Nil pointers become `none`; a nil slice (the
zero value, before any refresh succeeds) is `none`, a non-nil slice `some`. -/
structure State where
  channel : Option Channel
  liveVideo : Option Video
  videos : Option (List Video)
  deriving DecidableEq, Repr

/-- `state = new(State)`: all fields zero-valued (nil). -/
def initState : State := ⟨none, none, none⟩

/-! ## The regular expression

`re = regexp.MustCompile(` the case-insensitive pattern
`https://www\.youtube\.com/watch\?v=(.+)` `)` and its use through
`re.FindStringSubmatch`. Go `regexp` semantics for this pattern: the match
starts at the leftmost position where the literal matches case-insensitively
and is followed by at least one non-newline character (an unescaped dot does
not match a newline); the greedy `(.+)` capture then takes the maximal run
of non-newline characters. -/

/-- The literal part of the pattern, as a character list. -/
def watchLit : List Char := "https://www.youtube.com/watch?v=".toList

/-- Case-insensitive literal match at the head of the input; returns the
remainder on success. -/
def matchLitCI : List Char → List Char → Option (List Char)
  | [], rest => some rest
  | _ :: _, [] => none
  | p :: ps, c :: cs => if c.toLower = p.toLower then matchLitCI ps cs else none

/-- Maximal run of non-newline characters (what greedy `(.+)` consumes). -/
def takeNonNewline : List Char → List Char
  | [] => []
  | c :: cs => if c = '\n' then [] else c :: takeNonNewline cs

/-- Scan for the leftmost start where the whole pattern (literal + at least
one non-newline char) matches; return the capture group. -/
def reFindAux : List Char → Option (List Char)
  | [] => none
  | c :: cs =>
    match matchLitCI watchLit (c :: cs) with
    | some rest =>
      let cap := takeNonNewline rest
      if cap.isEmpty then reFindAux cs else some cap
    | none => reFindAux cs

/-- `re.FindStringSubmatch(s)` restricted to what the code uses: `none`
when there is no match (`len(sm) == 0`), otherwise `some` of the first
capture group (`sm[1]`). -/
def reFindStringSubmatch (s : String) : Option String :=
  (reFindAux s.toList).map fun l => String.mk l

/-! ## fetchLiveVideoId

The live-page resolver: request construction, the HTTP GET, `html.Parse`
and `cascadia.Parse` are fallible library steps modelled by environment
fields; `cascadia.Query` yields the (optional) first node matching the
canonical-link selector, carrying its attribute list. -/

/-- One HTML attribute (`html.Attribute`): `Key` and `Val`. -/
structure Attr where
  key : String
  val : String
  deriving DecidableEq, Repr

/-- The node returned by `cascadia.Query`, reduced to its attribute list
(the only part the code reads). -/
structure HtmlNode where
  attr : List Attr
  deriving DecidableEq, Repr

/-- Environment of one `fetchLiveVideoId` call: which fallible step (if
any) errors, and the query result when all of them succeed. -/
structure LiveEnv where
  reqErr : Option Err
  httpErr : Option Err
  parseErr : Option Err
  selErr : Option Err
  queryResult : Option HtmlNode
  deriving DecidableEq, Repr

/-- The attribute loop: `for _, v := range node.Attr` returns `sm[1]` for
the first `href` attribute whose value matches `re`; a non-matching `href`
falls through and the loop continues; after the loop the function returns
the empty string. -/
def scanAttrs : List Attr → String
  | [] => ""
  | a :: rest =>
    if a.key = "href" then
      match reFindStringSubmatch a.val with
      | some s => s
      | none => scanAttrs rest
    else scanAttrs rest

/-- `fetchLiveVideoId`: propagates the error of whichever step fails first
(request construction, HTTP `Do`, `html.Parse`, `cascadia.Parse`); with all
steps succeeding, returns the scan of the canonical node's attributes, or
the empty string when no node matched the selector. -/
def fetchLiveVideoId (e : LiveEnv) : Except Err String :=
  match e.reqErr with
  | some err => .error err
  | none =>
    match e.httpErr with
    | some err => .error err
    | none =>
      match e.parseErr with
      | some err => .error err
      | none =>
        match e.selErr with
        | some err => .error err
        | none =>
          match e.queryResult with
          | some node => .ok (scanAttrs node.attr)
          | none => .ok ""

/-! ## The YouTube API client -/

/-- `fetchChannel`: on upstream error, propagate it; otherwise return the
first item when `len(resp.Items) > 0`, else `(nil, nil)` — i.e. `ok none`. -/
def fetchChannel (resp : Except Err (List Channel)) : Except Err (Option Channel) :=
  match resp with
  | .error e => .error e
  | .ok items => .ok items.head?

/-- `fetchPlaylistItems`: propagate the upstream error, otherwise return
`resp.Items` unchanged. -/
def fetchPlaylistItems (resp : Except Err (List PlaylistItem)) :
    Except Err (List PlaylistItem) :=
  match resp with
  | .error e => .error e
  | .ok items => .ok items

/-- `fetchVideos`: propagate the upstream error, otherwise return
`resp.Items` unchanged (upstream ordering, whatever it is). -/
def fetchVideos (resp : Except Err (List Video)) : Except Err (List Video) :=
  match resp with
  | .error e => .error e
  | .ok items => .ok items

/-! ## The refresh orchestrator -/

/-- Upstream responses observed by one refresh cycle: each endpoint is
called at most once per cycle, so one response value per endpoint suffices. -/
structure Env where
  channelResp : Except Err (List Channel)
  liveEnv : LiveEnv
  playlistResp : Except Err (List PlaylistItem)
  videosResp : Except Err (List Video)

/-- Outcome of `refresh`: returned `nil`, returned an error, or crashed on
the nil-channel dereference `channel.Id` in `fetchLiveVideoId(channel.Id)`. -/
inductive Outcome where
  | ok : Outcome
  | error : Err → Outcome
  | panicNilChannel : Outcome
  deriving DecidableEq, Repr

/-- Result of one `refresh` call: the outcome, the snapshot after the call,
and whether `fetchVideos` was invoked during the cycle. -/
structure RefreshResult where
  outcome : Outcome
  state : State
  fetchVideosCalled : Bool
  deriving DecidableEq, Repr

/-- `refresh`, translated statement by statement: fetch channel (nil channel
would be dereferenced — modelled as `panicNilChannel`); resolve the live
video id; fetch playlist items; build `videoIds` (live id first when
non-empty, then playlist video ids); write `state.Channel`; short-circuit
when `videoIds` is empty; otherwise fetch videos and apply the positional
live-video split (`len(videos) > 0 && videos[0].Id == liveVideoId`). -/
def refresh (env : Env) (s : State) : RefreshResult :=
  match fetchChannel env.channelResp with
  | .error e => ⟨.error e, s, false⟩
  | .ok none => ⟨.panicNilChannel, s, false⟩
  | .ok (some channel) =>
    match fetchLiveVideoId env.liveEnv with
    | .error e => ⟨.error e, s, false⟩
    | .ok liveVideoId =>
      match fetchPlaylistItems env.playlistResp with
      | .error e => ⟨.error e, s, false⟩
      | .ok playlistItems =>
        let videoIds : List String :=
          (if liveVideoId ≠ "" then [liveVideoId] else []) ++
            playlistItems.map fun v => v.contentDetails.videoId
        let s1 : State := { s with channel := some channel }
        if videoIds.isEmpty then
          ⟨.ok, { s1 with videos := some [], liveVideo := none }, false⟩
        else
          match fetchVideos env.videosResp with
          | .error e => ⟨.error e, s1, true⟩
          | .ok videos =>
            match videos with
            | v :: rest =>
              if v.id = liveVideoId then
                ⟨.ok, { s1 with liveVideo := some v, videos := some rest }, true⟩
              else
                ⟨.ok, { s1 with liveVideo := none, videos := some (v :: rest) }, true⟩
            | [] => ⟨.ok, { s1 with liveVideo := none, videos := some [] }, true⟩

/-! ## The HTTP snapshot server

`startWebServer` installs a single `http.HandlerFunc` that, for every
request, sets `content-type: application/json` and encodes the state; the
implicit status of a body write without `WriteHeader` is 200.
`json.Encoder.Encode` serialises nil pointers and nil slices as `null`. -/

/-- An inbound HTTP request, reduced to what could possibly matter (and is
in fact ignored by the handler). -/
structure Request where
  method : String
  path : String
  deriving DecidableEq, Repr

/-- The observable response: status code, content-type header, body. -/
structure Response where
  status : Nat
  contentType : String
  body : String
  deriving DecidableEq, Repr

/-- JSON string escaping for the characters that require it in the ids and
titles at hand. -/
def escapeChar (c : Char) : String :=
  if c = '"' then "\\\"" else if c = '\\' then "\\\\" else String.singleton c

/-- Escape a string for embedding in a JSON string literal. -/
def jsonEscape (s : String) : String := String.join (s.toList.map escapeChar)

/-- A JSON string literal. -/
def jsonStr (s : String) : String := "\"" ++ jsonEscape s ++ "\""

/-- JSON encoding of a `Video` (field order follows the struct). -/
def encodeVideo (v : Video) : String :=
  "\x7b\"id\":" ++ jsonStr v.id ++ ",\"title\":" ++ jsonStr v.title ++ "\x7d"

/-- JSON encoding of a `Channel`. -/
def encodeChannel (c : Channel) : String :=
  "\x7b\"id\":" ++ jsonStr c.id ++
    ",\"contentDetails\":\x7b\"relatedPlaylists\":\x7b\"uploads\":" ++
    jsonStr c.contentDetails.relatedPlaylists.uploads ++ "\x7d\x7d" ++
    ",\"title\":" ++ jsonStr c.title ++ "\x7d"

/-- JSON encoding of a list as an array. -/
def encodeList (f : α → String) (l : List α) : String :=
  "[" ++ String.intercalate "," (l.map f) ++ "]"

/-- `null` for a nil pointer / nil slice, the payload encoding otherwise. -/
def encodeOpt (f : α → String) : Option α → String
  | none => "null"
  | some a => f a

/-- JSON encoding of the snapshot with the struct's `json:` tags:
`channel`, `liveVideo`, `videos`. -/
def encodeState (s : State) : String :=
  "\x7b\"channel\":" ++ encodeOpt encodeChannel s.channel ++
    ",\"liveVideo\":" ++ encodeOpt encodeVideo s.liveVideo ++
    ",\"videos\":" ++ encodeOpt (encodeList encodeVideo) s.videos ++ "\x7d"

/-- The handler: ignores method and path, sets the content-type header,
writes the encoded snapshot (`json.Encoder.Encode` appends a newline), and
the unset status defaults to 200. -/
def handler (s : State) (_r : Request) : Response :=
  ⟨200, "application/json", encodeState s ++ "\n"⟩

/-! ## Concrete fixtures used by witnesses and counterexamples -/

/-- A concrete channel record. -/
def chanA : Channel := ⟨"UC1", ⟨⟨"UU1"⟩⟩, "Chan"⟩

/-- Resolver environment in which every step succeeds and no canonical
link is present: the resolver yields the empty string. -/
def liveEnvEmpty : LiveEnv := ⟨none, none, none, none, none⟩

/-- Resolver environment whose canonical link points at watch id `X`. -/
def liveEnvX : LiveEnv :=
  ⟨none, none, none, none, some ⟨[⟨"href", "https://www.youtube.com/watch?v=X"⟩]⟩⟩

/-- Cycle whose batched video fetch fails after the earlier steps
succeeded with a channel and one playlist item. -/
def envC1 : Env := ⟨.ok [chanA], liveEnvEmpty, .ok [⟨⟨"vidA"⟩⟩], .error "boom"⟩

/-- Cycle whose channel lookup succeeds with zero items. -/
def envC2 : Env := ⟨.ok [], liveEnvEmpty, .ok [], .ok []⟩

/-- Cycle where the live id resolves to `X` and the batch returns two
videos that both carry id `X`. -/
def envC3 : Env := ⟨.ok [chanA], liveEnvX, .ok [], .ok [⟨"X", "first"⟩, ⟨"X", "dup"⟩]⟩

/-- Cycle where the live id resolves to `X` and the batch returns the live
video first followed by two uploads. -/
def envW4 : Env :=
  ⟨.ok [chanA], liveEnvX, .ok [⟨⟨"A"⟩⟩, ⟨⟨"B"⟩⟩],
    .ok [⟨"X", "live"⟩, ⟨"A", "a"⟩, ⟨"B", "b"⟩]⟩

/-- Cycle with no live video and an empty uploads playlist. -/
def envW5 : Env := ⟨.ok [chanA], liveEnvEmpty, .ok [], .ok []⟩

/-- Cycle where the live id resolves to `X` and the batch returns the live
video followed by one distinct upload. -/
def envW3 : Env := ⟨.ok [chanA], liveEnvX, .ok [], .ok [⟨"X", "live"⟩, ⟨"Y", "other"⟩]⟩

/-- Cycle where the live id resolves to `X` but the batch comes back empty. -/
def envW9 : Env := ⟨.ok [chanA], liveEnvX, .ok [], .ok []⟩

/-- Resolver environment whose canonical link is a playlist URL, which the
watch-URL pattern does not match. -/
def liveEnvW8 : LiveEnv :=
  ⟨none, none, none, none,
    some ⟨[⟨"href", "https://www.youtube.com/playlist?list=1"⟩]⟩⟩

/-- Resolver environment whose canonical watch URL carries a newline inside
the suffix after `v=`. -/
def liveEnvC10 : LiveEnv :=
  ⟨none, none, none, none,
    some ⟨[⟨"href", "https://www.youtube.com/watch?v=a\nb"⟩]⟩⟩

/-! ## Claim C1 — snapshot on a failing cycle -/

/-- Claim C1 as stated is false: a cycle that fails at the batched video
fetch returns the error, yet `state.Channel` was already overwritten with
the newly fetched channel before the failing call, so the snapshot is not
equal to its pre-call value. -/
theorem C1_counterexample :
    (refresh envC1 initState).outcome = Outcome.error "boom" ∧
    (refresh envC1 initState).state.channel ≠ initState.channel := by
  decide

/-- Claim C1 (corrected): a cycle failing at channel fetch, live-id
resolution or playlist fetch returns the error with the snapshot exactly as
before the call; a cycle failing at the batched video fetch returns the
error with `liveVideo` and `videos` unchanged, but `channel` already
overwritten with the freshly fetched (non-nil) channel record. -/
theorem C1_snapshot_on_error (env : Env) (s : State) (e : Err)
    (herr : (refresh env s).outcome = Outcome.error e) :
    (refresh env s).state.liveVideo = s.liveVideo ∧
    (refresh env s).state.videos = s.videos ∧
    ((refresh env s).fetchVideosCalled = false → (refresh env s).state = s) ∧
    ((refresh env s).fetchVideosCalled = true →
      fetchChannel env.channelResp = Except.ok (refresh env s).state.channel ∧
      (refresh env s).state.channel ≠ none) := by
  cases h1 : fetchChannel env.channelResp with
  | error e1 => simp [refresh, h1]
  | ok oc =>
    cases oc with
    | none => simp [refresh, h1] at herr
    | some c =>
      cases h2 : fetchLiveVideoId env.liveEnv with
      | error e2 => simp [refresh, h1, h2]
      | ok L =>
        cases h3 : fetchPlaylistItems env.playlistResp with
        | error e3 => simp [refresh, h1, h2, h3]
        | ok items =>
          by_cases h4 : L = "" ∧ items = []
          · simp [refresh, h1, h2, h3, h4] at herr
          · cases h5 : fetchVideos env.videosResp with
            | error e5 => simp [refresh, h1, h2, h3, h4, h5]
            | ok videos =>
              cases videos with
              | nil => simp [refresh, h1, h2, h3, h4, h5] at herr
              | cons v rest =>
                by_cases h6 : v.id = L
                · simp [refresh, h1, h2, h3, h4, h5, h6] at herr
                · simp [refresh, h1, h2, h3, h4, h5, h6] at herr

/-- Claim C1 witness: the corrected statement applied to the concrete cycle
whose batched video fetch fails. -/
theorem C1_witness :
    (refresh envC1 initState).state.liveVideo = initState.liveVideo ∧
    (refresh envC1 initState).state.videos = initState.videos ∧
    ((refresh envC1 initState).fetchVideosCalled = false →
      (refresh envC1 initState).state = initState) ∧
    ((refresh envC1 initState).fetchVideosCalled = true →
      fetchChannel envC1.channelResp =
        Except.ok (refresh envC1 initState).state.channel ∧
      (refresh envC1 initState).state.channel ≠ none) :=
  C1_snapshot_on_error envC1 initState "boom" (by decide)

/-! ## Claim C2 — channel lookup with zero items -/

/-- Claim C2 names the intended behavior; the code violates it: when the
channel lookup succeeds with zero items, `fetchChannel` returns a nil
channel with a nil error, and `refresh` passes `channel.Id` straight to the
resolver, dereferencing the nil channel instead of failing with an explicit
"channel not found" error. -/
theorem C2_nil_channel_dereference :
    fetchChannel envC2.channelResp = Except.ok none ∧
    (refresh envC2 initState).outcome = Outcome.panicNilChannel := by
  exact ⟨rfl, by decide⟩

/-! ## Claim C3 — the live video's id never appears in `videos` -/

/-- Claim C3 as stated is false: the split removes only the first element
of the batch response, so when the upstream batch carries a duplicate of
the live id, a successful cycle ends with a non-null `liveVideo` and a
video of the same id still inside `videos`. -/
theorem C3_counterexample :
    (refresh envC3 initState).outcome = Outcome.ok ∧
    (refresh envC3 initState).state.liveVideo = some ⟨"X", "first"⟩ ∧
    (refresh envC3 initState).state.videos = some [⟨"X", "dup"⟩] ∧
    (Video.mk "X" "dup").id = (Video.mk "X" "first").id := by
  decide

/-- Claim C3 (corrected): provided the batched video fetch returns videos
with pairwise-distinct ids, a successful cycle that ends with a non-null
`liveVideo` leaves no video with the live video's id inside `videos`. -/
theorem C3_no_live_id_in_videos (env : Env) (s : State) (lv : Video)
    (vl vs : List Video)
    (hvr : fetchVideos env.videosResp = Except.ok vl)
    (hnodup : (vl.map Video.id).Nodup)
    (hok : (refresh env s).outcome = Outcome.ok)
    (hlv : (refresh env s).state.liveVideo = some lv)
    (hvs : (refresh env s).state.videos = some vs) :
    lv.id ∉ vs.map Video.id := by
  cases h1 : fetchChannel env.channelResp with
  | error e1 => simp [refresh, h1] at hok
  | ok oc =>
    cases oc with
    | none => simp [refresh, h1] at hok
    | some c =>
      cases h2 : fetchLiveVideoId env.liveEnv with
      | error e2 => simp [refresh, h1, h2] at hok
      | ok L =>
        cases h3 : fetchPlaylistItems env.playlistResp with
        | error e3 => simp [refresh, h1, h2, h3] at hok
        | ok items =>
          by_cases h4 : L = "" ∧ items = []
          · simp [refresh, h1, h2, h3, h4] at hlv
          · cases vl with
            | nil => simp [refresh, h1, h2, h3, h4, hvr] at hlv
            | cons v rest =>
              by_cases h6 : v.id = L
              · simp [refresh, h1, h2, h3, h4, hvr, h6] at hlv hvs
                simp [List.map_cons] at hnodup
                rw [← hlv, ← hvs]
                intro hmem
                rw [List.mem_map] at hmem
                obtain ⟨x, hx, hxid⟩ := hmem
                exact hnodup.1 x hx hxid
              · simp [refresh, h1, h2, h3, h4, hvr, h6] at hlv

/-- Claim C3 witness: the corrected statement applied to a concrete cycle
whose batch returns the live video `X` followed by a distinct upload `Y`. -/
theorem C3_witness :
    (Video.mk "X" "live").id ∉ ([⟨"Y", "other"⟩] : List Video).map Video.id :=
  C3_no_live_id_in_videos envW3 initState ⟨"X", "live"⟩
    [⟨"X", "live"⟩, ⟨"Y", "other"⟩] [⟨"Y", "other"⟩]
    rfl (by decide) (by decide) (by decide) (by decide)

/-! ## Claim C4 — positional live-video split -/

/-- Claim C4: on a successful cycle whose batched fetch was invoked and
returned a non-empty list, `liveVideo` is determined positionally: the
first returned video becomes `liveVideo` (and is dropped from `videos`)
exactly when its id equals the resolved live id; otherwise `liveVideo` is
null and all returned videos (a later live id included) become `videos`. -/
theorem C4_positional_live_split (env : Env) (s : State) (L : String)
    (v : Video) (vs : List Video)
    (hl : fetchLiveVideoId env.liveEnv = Except.ok L)
    (hv : fetchVideos env.videosResp = Except.ok (v :: vs))
    (hok : (refresh env s).outcome = Outcome.ok)
    (hcalled : (refresh env s).fetchVideosCalled = true) :
    if v.id = L
    then (refresh env s).state.liveVideo = some v ∧
      (refresh env s).state.videos = some vs
    else (refresh env s).state.liveVideo = none ∧
      (refresh env s).state.videos = some (v :: vs) := by
  cases h1 : fetchChannel env.channelResp with
  | error e1 => simp [refresh, h1] at hok
  | ok oc =>
    cases oc with
    | none => simp [refresh, h1] at hok
    | some c =>
      cases h3 : fetchPlaylistItems env.playlistResp with
      | error e3 => simp [refresh, h1, hl, h3] at hok
      | ok items =>
        by_cases h4 : L = "" ∧ items = []
        · simp [refresh, h1, hl, h3, h4] at hcalled
        · by_cases h6 : v.id = L
          · simp [refresh, h1, hl, h3, h4, hv, h6]
          · simp [refresh, h1, hl, h3, h4, hv, h6]

/-- Claim C4 witness: the positional split applied to a concrete cycle with
live id `X` and batch response `[X, A, B]`. -/
theorem C4_witness :
    if (Video.mk "X" "live").id = "X"
    then (refresh envW4 initState).state.liveVideo = some ⟨"X", "live"⟩ ∧
      (refresh envW4 initState).state.videos = some [⟨"A", "a"⟩, ⟨"B", "b"⟩]
    else (refresh envW4 initState).state.liveVideo = none ∧
      (refresh envW4 initState).state.videos =
        some [⟨"X", "live"⟩, ⟨"A", "a"⟩, ⟨"B", "b"⟩] :=
  C4_positional_live_split envW4 initState "X" ⟨"X", "live"⟩
    [⟨"A", "a"⟩, ⟨"B", "b"⟩] rfl rfl (by decide) (by decide)

/-! ## Claim C5 — empty candidate list short-circuits -/

/-- Claim C5: when the resolver returns the empty string and the uploads
playlist is empty, the cycle succeeds with `channel` updated, `liveVideo`
null, `videos` the empty sequence, and the batched video fetch is never
invoked. -/
theorem C5_short_circuit (env : Env) (s : State) (c : Channel)
    (hc : fetchChannel env.channelResp = Except.ok (some c))
    (hl : fetchLiveVideoId env.liveEnv = Except.ok "")
    (hp : fetchPlaylistItems env.playlistResp = Except.ok []) :
    refresh env s =
      ⟨Outcome.ok,
        { s with channel := some c, liveVideo := none, videos := some [] },
        false⟩ := by
  simp [refresh, hc, hl, hp]

/-- Claim C5 witness: the short-circuit applied to a concrete cycle with no
canonical live link and an empty playlist. -/
theorem C5_witness :
    refresh envW5 initState =
      ⟨Outcome.ok, ⟨some chanA, none, some []⟩, false⟩ :=
  C5_short_circuit envW5 initState chanA rfl rfl rfl

/-! ## Claim C6 — idempotence under unchanged upstream responses -/

/-- Claim C6: with identical upstream responses, running `refresh` a second
time from the state the first run produced yields the same result — in
particular the snapshot after each of the two runs is identical. -/
theorem C6_refresh_idempotent (env : Env) (s : State) :
    refresh env ((refresh env s).state) = refresh env s := by
  cases h1 : fetchChannel env.channelResp with
  | error e1 => simp [refresh, h1]
  | ok oc =>
    cases oc with
    | none => simp [refresh, h1]
    | some c =>
      cases h2 : fetchLiveVideoId env.liveEnv with
      | error e2 => simp [refresh, h1, h2]
      | ok L =>
        cases h3 : fetchPlaylistItems env.playlistResp with
        | error e3 => simp [refresh, h1, h2, h3]
        | ok items =>
          by_cases h4 : L = "" ∧ items = []
          · simp [refresh, h1, h2, h3, h4]
          · cases h5 : fetchVideos env.videosResp with
            | error e5 => simp [refresh, h1, h2, h3, h4, h5]
            | ok videos =>
              cases videos with
              | nil => simp [refresh, h1, h2, h3, h4, h5]
              | cons v rest =>
                by_cases h6 : v.id = L
                · simp [refresh, h1, h2, h3, h4, h5, h6]
                · simp [refresh, h1, h2, h3, h4, h5, h6]

/-! ## Claim C7 — the HTTP handler's response -/

/-- Claim C7: for every inbound request, whatever its method and path, the
handler responds with status 200, content-type `application/json`, and the
JSON encoding of the current snapshot (as written by the JSON encoder,
which appends a newline); nil fields encode as JSON `null`, as the
all-nil initial snapshot shows. -/
theorem C7_handler_contract (s : State) (r : Request) :
    (handler s r).status = 200 ∧
    (handler s r).contentType = "application/json" ∧
    (handler s r).body = encodeState s ++ "\n" ∧
    encodeState initState =
      "\x7b\"channel\":null,\"liveVideo\":null,\"videos\":null\x7d" :=
  ⟨rfl, rfl, rfl, rfl⟩

/-! ## Claim C8 — resolver returns empty string, not an error -/

/-- True exactly of a non-error resolver result. -/
def isOkStr : Except Err String → Bool
  | .ok _ => true
  | .error _ => false

/-- The attribute loop yields the empty string when no `href` attribute's
value matches the watch-URL pattern. -/
theorem scanAttrs_eq_empty (attrs : List Attr)
    (h : ∀ a ∈ attrs, a.key = "href" → reFindStringSubmatch a.val = none) :
    scanAttrs attrs = "" := by
  induction attrs with
  | nil => rfl
  | cons a rest ih =>
    by_cases hk : a.key = "href"
    · have hm := h a (by simp) hk
      simp [scanAttrs, hk, hm]
      exact ih fun b hb hkb => h b (by simp [hb]) hkb
    · simp [scanAttrs, hk]
      exact ih fun b hb hkb => h b (by simp [hb]) hkb

/-- Claim C8: whenever request construction, the HTTP request, the HTML
parse and the selector parse all succeed, the resolver returns without
error; and it returns the empty string both when no canonical-link node
matched and when no `href` attribute of the matched node fits the
watch-URL pattern. (Conversely, an error can only originate from one of
those four steps.) -/
theorem C8_resolver_no_match_ok (e : LiveEnv)
    (hreq : e.reqErr = none) (hhttp : e.httpErr = none)
    (hparse : e.parseErr = none) (hsel : e.selErr = none) :
    isOkStr (fetchLiveVideoId e) = true ∧
    ((∀ node, e.queryResult = some node →
        ∀ a ∈ node.attr, a.key = "href" → reFindStringSubmatch a.val = none) →
      fetchLiveVideoId e = Except.ok "") := by
  cases hq : e.queryResult with
  | none => simp [fetchLiveVideoId, hreq, hhttp, hparse, hsel, hq, isOkStr]
  | some node =>
    constructor
    · simp [fetchLiveVideoId, hreq, hhttp, hparse, hsel, hq, isOkStr]
    · intro h
      have hscan := scanAttrs_eq_empty node.attr (h node rfl)
      simp [fetchLiveVideoId, hreq, hhttp, hparse, hsel, hq, hscan]

/-- Claim C8 witness: the resolver applied to a page whose canonical link
is a playlist URL (parseable, selector matched, href does not fit the
watch-URL pattern) returns the empty string without error. -/
theorem C8_witness : fetchLiveVideoId liveEnvW8 = Except.ok "" :=
  (C8_resolver_no_match_ok liveEnvW8 rfl rfl rfl rfl).2 (by
    intro node hnode a ha hk
    simp [liveEnvW8] at hnode
    subst hnode
    simp at ha
    subst ha
    decide)

/-! ## Claim C9 — empty batch response on a live cycle -/

/-- Claim C9: when a non-empty live id was resolved but the batched video
fetch succeeds with an empty list, the cycle succeeds with `liveVideo` null
and `videos` empty — the `len(videos) > 0` guard makes the first-element
access unreachable. -/
theorem C9_empty_batch (env : Env) (s : State) (c : Channel) (L : String)
    (hc : fetchChannel env.channelResp = Except.ok (some c))
    (hl : fetchLiveVideoId env.liveEnv = Except.ok L) (hL : L ≠ "")
    (hp : ∃ items, fetchPlaylistItems env.playlistResp = Except.ok items)
    (hv : fetchVideos env.videosResp = Except.ok []) :
    refresh env s =
      ⟨Outcome.ok,
        { s with channel := some c, liveVideo := none, videos := some [] },
        true⟩ := by
  obtain ⟨items, hp⟩ := hp
  simp [refresh, hc, hl, hp, hv, hL]

/-- Claim C9 witness: the empty-batch behavior on a concrete cycle whose
live id is `X`. -/
theorem C9_witness :
    refresh envW9 initState =
      ⟨Outcome.ok, ⟨some chanA, none, some []⟩, true⟩ :=
  C9_empty_batch envW9 initState chanA "X" rfl rfl (by decide)
    ⟨[], rfl⟩ rfl

/-! ## Claim C10 — greedy capture of the watch-URL suffix -/

/-- Claim C10 as stated is false in one respect: Go's unescaped dot does
not match a newline, so for a suffix containing a newline the capture stops
at the newline instead of taking the entire suffix — here the href
`https://www.youtube.com/watch?v=a\nb` yields `a`, not `a\nb`. -/
theorem C10_counterexample :
    fetchLiveVideoId liveEnvC10 = Except.ok "a" ∧ ("a" : String) ≠ "a\nb" := by
  exact ⟨rfl, by decide⟩

/-- Case-insensitive literal match against an appended string consumes
exactly the literal's length. -/
theorem matchLitCI_append (p s t : List Char)
    (h : s.map Char.toLower = p.map Char.toLower) :
    matchLitCI p (s ++ t) = some t := by
  induction p generalizing s with
  | nil =>
    cases s with
    | nil => rfl
    | cons c cs => simp at h
  | cons q qs ih =>
    cases s with
    | nil => simp at h
    | cons c cs =>
      simp at h
      simp [matchLitCI, h.1]
      exact ih cs h.2

/-- The greedy capture takes the whole remainder when it contains no
newline. -/
theorem takeNonNewline_all (l : List Char) (h : '\n' ∉ l) :
    takeNonNewline l = l := by
  induction l with
  | nil => rfl
  | cons c cs ih =>
    simp at h
    have hc : ¬c = '\n' := fun hcc => h.1 hcc.symm
    simp [takeNonNewline, hc]
    exact ih h.2

/-- Claim C10 (corrected): for a canonical href of the form
`https://www.youtube.com/watch?v=S` — prefix matched case-insensitively —
with `S` non-empty and containing no newline, the resolver returns the
entire suffix `S`, query parameters after `&` included: the capture is
greedy and not restricted to a well-formed video id. -/
theorem C10_greedy_capture (pre S : String)
    (hlit : pre.toList.map Char.toLower = watchLit)
    (hS : S ≠ "") (hnl : '\n' ∉ S.toList) :
    fetchLiveVideoId ⟨none, none, none, none, some ⟨[⟨"href", pre ++ S⟩]⟩⟩ =
      Except.ok S := by
  have hlit2 : pre.toList.map Char.toLower = watchLit.map Char.toLower := by
    rw [hlit]
    decide
  have hfind : reFindStringSubmatch (pre ++ S) = some S := by
    have happ : (pre ++ S).toList = pre.toList ++ S.toList := by
      simp [String.toList]
    cases hp : pre.toList with
    | nil => rw [hp] at hlit; simp [watchLit] at hlit
    | cons c cs =>
      rw [hp] at hlit2
      have hmatch : matchLitCI watchLit ((c :: cs) ++ S.toList) = some S.toList :=
        matchLitCI_append watchLit (c :: cs) S.toList hlit2
      have htake : takeNonNewline S.toList = S.toList := takeNonNewline_all S.toList hnl
      have hSnil : S.toList ≠ [] := by
        intro hcon
        apply hS
        cases S with
        | mk data => simp [String.toList] at hcon; simp [hcon]
      unfold reFindStringSubmatch
      rw [happ, hp]
      rw [List.cons_append] at hmatch ⊢
      unfold reFindAux
      rw [hmatch]
      simp only [htake, List.isEmpty_iff, hSnil, if_neg]
      simp [String.mk]
  simp [fetchLiveVideoId, scanAttrs, hfind]

/-- Claim C10 witness: the corrected statement applied to a concrete
mixed-case watch URL whose suffix carries an extra query parameter. -/
theorem C10_witness :
    fetchLiveVideoId
      ⟨none, none, none, none,
        some ⟨[⟨"href", "HTTPS://www.YouTube.com/watch?v=" ++ "dQw4w9WgXcQ&t=10"⟩]⟩⟩ =
      Except.ok "dQw4w9WgXcQ&t=10" :=
  C10_greedy_capture "HTTPS://www.YouTube.com/watch?v=" "dQw4w9WgXcQ&t=10"
    (by decide) (by decide) (by decide)

end Onyt
